import Mathlib

/-!
Verification development for the `dump_video_frames` command-line utility
(`src/app.py`, with `ffmpeg_setup.py` and `logging_setup.py` as side-effect-only
helpers).  The program is a small orchestration layer around an external media
tool: it probes video metadata, plans a target sampling rate, drives per-video
frame extraction, and cleans up previously extracted frames.

The embedding below models, from the source:
  * the frame-rate string parsing and metadata assembly of
    `_get_video_metadata` (app.py lines 20-59),
  * the rate planning and control flow of `extract_frames` (lines 62-113),
  * the cleanup logic of `delete_frames` (lines 116-155) over an explicit
    filesystem state,
  * the `extract` branch of `main` (lines 185-218): manifest handling,
    output-directory selection, and the per-video try/except loop.

Python floats are modelled by exact rationals; the messages carried by raised
exceptions keep the source wording minus f-string interpolation of paths.
-/

namespace DumpFrames

instance exceptDecEq {ε α : Type} [DecidableEq ε] [DecidableEq α] : DecidableEq (Except ε α)
  | .error e, .error f =>
    if h : e = f then .isTrue (by subst h; rfl)
    else .isFalse (fun hc => h (Except.error.inj hc))
  | .error _, .ok _ => .isFalse (fun hc => Except.noConfusion hc)
  | .ok _, .error _ => .isFalse (fun hc => Except.noConfusion hc)
  | .ok x, .ok y =>
    if h : x = y then .isTrue (by subst h; rfl)
    else .isFalse (fun hc => h (Except.ok.inj hc))

/-- Python `s.split('/')` on a character list: splits at every `'/'`, keeping
empty pieces (mirrors `avg_frame_rate.split('/')` in app.py line 37). -/
def splitSlash : List Char → List (List Char)
  | [] => [[]]
  | c :: r =>
    if c = '/' then [] :: splitSlash r
    else
      match splitSlash r with
      | [] => [[c]]
      | h :: t => (c :: h) :: t

/-- Numeric value of a digit list (most significant digit first). -/
def digitsVal (cs : List Char) : Nat :=
  cs.foldl (fun a c => a * 10 + (c.toNat - 48)) 0

/-- Nonempty and consisting only of decimal digits. -/
def allDigits (cs : List Char) : Bool :=
  !cs.isEmpty && cs.all (fun c => c.isDigit)

/-- Python `int(s)` on the rate strings ffprobe emits: an optional sign
followed by digits (whitespace/underscore forms are not modelled; ffprobe
rate components are plain digit strings).  `none` models the `ValueError`
Python raises for anything else. -/
def pyIntChars : List Char → Option ℤ
  | '-' :: rest => if allDigits rest then some (-(digitsVal rest : ℤ)) else none
  | '+' :: rest => if allDigits rest then some ((digitsVal rest : ℤ)) else none
  | cs => if allDigits cs then some ((digitsVal cs : ℤ)) else none

/-- Python `float(s)` for plain decimal literals: optional sign, integer part,
optional `'.'` and fractional part (exponent forms are not modelled; ffprobe
duration fields are plain decimals).  `none` models the `ValueError`. -/
def pyFloatChars (cs0 : List Char) : Option ℚ :=
  let signed : ℚ × List Char :=
    match cs0 with
    | '-' :: r => (-1, r)
    | '+' :: r => (1, r)
    | r => (1, r)
  let intPart := signed.2.takeWhile (fun c => c.isDigit)
  let rest := signed.2.dropWhile (fun c => c.isDigit)
  match rest with
  | [] => if intPart.isEmpty then none else some (signed.1 * (digitsVal intPart : ℚ))
  | '.' :: frac =>
    if frac.all (fun c => c.isDigit) && !(intPart.isEmpty && frac.isEmpty) then
      some (signed.1 * ((digitsVal intPart : ℚ) + (digitsVal frac : ℚ) / ((10 : ℚ) ^ frac.length)))
    else none
  | _ => none

/-- Python `float` on a string. -/
def pyFloat (s : String) : Option ℚ := pyFloatChars s.data

/-- Python `int` on a string. -/
def pyInt (s : String) : Option ℤ := pyIntChars s.data

/-- Python truthiness of a string (`""` is falsy). -/
def strTruthy (s : String) : Bool := !(s == "")

/-- Python truthiness of an optional string field (`None` and `""` falsy). -/
def optTruthy : Option String → Bool
  | none => false
  | some s => strTruthy s

/-- Python `'/' in s`. -/
def containsSlash (s : String) : Bool := s.data.contains '/'

/-- Python `str.lower()` (ASCII case folding, characterwise). -/
def toLowerStr (s : String) : String := String.mk (s.data.map Char.toLower)

/-- Python `s.endswith(suff)`, on the character lists. -/
def strEndsWith (s suff : String) : Bool := suff.data.isSuffixOf s.data

/-- `num, den = map(int, s.split('/'))` (app.py lines 37 and 44): requires
exactly two pieces, both parsing as ints; `none` models the `ValueError`
Python raises otherwise (bad literal or unpacking mismatch). -/
def parse_frame_rate_pair (s : String) : Option (ℤ × ℤ) :=
  match splitSlash s.data with
  | [a, b] =>
    match pyIntChars a, pyIntChars b with
    | some n, some d => some (n, d)
    | _, _ => none
  | _ => none

/-- `fps = num / den if den != 0 else 0.0` (app.py lines 37-38 and 44-45);
`Except.error` models the exception propagating out of the parse. -/
def parse_rate_str (s : String) : Except Unit ℚ :=
  match parse_frame_rate_pair s with
  | some nd => Except.ok (if nd.2 = 0 then 0 else (nd.1 : ℚ) / (nd.2 : ℚ))
  | none => Except.error ()

/-- app.py lines 41-47: the `r_frame_rate` fallback taken only when
`avg_frame_rate` is absent or empty.  A plain (slash-free) `r_frame_rate`
yields 0.0 — unlike the avg branch there is no `float(...)` attempt. -/
def fps_fallback (r : Option String) : Except Unit ℚ :=
  match r with
  | some s => if strTruthy s && containsSlash s then parse_rate_str s else Except.ok 0
  | none => Except.ok 0

/-- app.py lines 35-47: fps from `avg_frame_rate` when truthy (fraction if it
contains a slash, else `float(...)`), otherwise from `r_frame_rate`. -/
def parse_fps (avg r : Option String) : Except Unit ℚ :=
  match avg with
  | some s =>
    if strTruthy s && containsSlash s then parse_rate_str s
    else if strTruthy s then
      match pyFloat s with
      | some q => Except.ok q
      | none => Except.error ()
    else fps_fallback r
  | none => fps_fallback r

example : parse_fps (some "30/0") (some "25/1") = Except.ok 0 := by decide
example : parse_fps none none = Except.ok 0 := by decide
example : parse_frame_rate_pair "30000/1001" = some (30000, 1001) := by decide
example : parse_frame_rate_pair "25/1" = some (25, 1) := by decide

/-! ## Metadata Prober (`_get_video_metadata`, app.py lines 20-59) -/

/-- The exceptions raised by the Python code, by class, with the message the
source uses (path interpolation dropped). -/
inductive PyErr where
  | fileNotFound (msg : String)
  | valueError (msg : String)
  | keyError (msg : String)
  | runtimeError (msg : String)
deriving DecidableEq

/-- Exception-class tests used to compare error kinds at the caller boundary. -/
def PyErr.isValueError : PyErr → Bool
  | .valueError _ => true
  | _ => false

def PyErr.isRuntimeError : PyErr → Bool
  | .runtimeError _ => true
  | _ => false

def PyErr.isFileNotFound : PyErr → Bool
  | .fileNotFound _ => true
  | _ => false

/-- One entry of the probe response's `streams` list, restricted to the fields
`_get_video_metadata` reads.  `width`/`height` are `Option` because the source
indexes them (`video_stream['width']`), a `KeyError` when absent; the string
fields are read with `.get`. -/
structure StreamInfo where
  codec_type : String
  duration : Option String
  width : Option ℤ
  height : Option ℤ
  avg_frame_rate : Option String
  r_frame_rate : Option String
deriving DecidableEq

/-- Outcome of the external `ffmpeg.probe` call: a parsed response (streams
plus the container-level `format.duration`), or an `ffmpeg.Error`. -/
inductive ProbeResult where
  | success (streams : List StreamInfo) (format_duration : Option String)
  | failure
deriving DecidableEq

/-- The dict `_get_video_metadata` returns (line 52). -/
structure VideoMetadata where
  duration_s : ℚ
  width : ℤ
  height : ℤ
  fps : ℚ
deriving DecidableEq

/-- The body of the `try` block, app.py lines 26-52: find the first stream
with `codec_type == 'video'` (line 27-29), parse duration with stream-level
preferred over container-level and default 0.0 (line 31), index width/height
(lines 32-33), and parse fps (lines 35-47).  Errors are the exceptions the
Python statements raise. -/
def metadata_body (streams : List StreamInfo) (format_duration : Option String) :
    Except PyErr VideoMetadata :=
  match streams.find? (fun s => s.codec_type == "video") with
  | none => Except.error (PyErr.valueError "No video stream found")
  | some vs =>
    let durParse : Except PyErr ℚ :=
      match vs.duration with
      | some ds =>
        match pyFloat ds with
        | some q => Except.ok q
        | none => Except.error (PyErr.valueError "could not convert string to float")
      | none =>
        match format_duration with
        | some ds =>
          match pyFloat ds with
          | some q => Except.ok q
          | none => Except.error (PyErr.valueError "could not convert string to float")
        | none => Except.ok 0
    match durParse with
    | Except.error e => Except.error e
    | Except.ok dur =>
      match vs.width, vs.height with
      | some w, some h =>
        match parse_fps vs.avg_frame_rate vs.r_frame_rate with
        | Except.ok fps => Except.ok ⟨dur, w, h, fps⟩
        | Except.error _ => Except.error (PyErr.valueError "invalid frame rate string")
      | _, _ => Except.error (PyErr.keyError "width or height missing")

/-- `_get_video_metadata`, app.py lines 20-59: the existence check precedes the
`try` (lines 22-23); `except ffmpeg.Error` (line 53) and the blanket
`except Exception` (line 57) both re-raise the same
`RuntimeError("Could not get video metadata for ...")`. -/
def get_video_metadata (fileExists : Bool) (probe : ProbeResult) :
    Except PyErr VideoMetadata :=
  if !fileExists then Except.error (PyErr.fileNotFound "Video file not found")
  else
    match probe with
    | ProbeResult.failure => Except.error (PyErr.runtimeError "Could not get video metadata.")
    | ProbeResult.success streams fd =>
      match metadata_body streams fd with
      | Except.ok m => Except.ok m
      | Except.error _ => Except.error (PyErr.runtimeError "Could not get video metadata.")

/-! ## Rate Planner and Frame Extractor (`extract_frames`, app.py lines 62-113) -/

/-- app.py lines 76-88: target fps from `num_frames` (fallback 1.0 when
duration is nonpositive) or from `interval_sec` (`ValueError` when
nonpositive); neither set is a `ValueError`. -/
def plan_target_fps (num_frames : Option ℤ) (interval_sec : Option ℚ) (duration_s : ℚ) :
    Except PyErr ℚ :=
  match num_frames with
  | some n => if duration_s ≤ 0 then Except.ok 1 else Except.ok ((n : ℚ) / duration_s)
  | none =>
    match interval_sec with
    | some i =>
      if i ≤ 0 then Except.error (PyErr.valueError "Interval seconds must be greater than 0.")
      else Except.ok (1 / i)
    | none => Except.error (PyErr.valueError "Either 'num_frames' or 'interval_sec' must be specified.")

/-- Per-video environment: filesystem facts about the video path, plus the
behaviour of the two external-tool calls (the ffprobe invocation inside
`_get_video_metadata` and the ffmpeg extraction subprocess). -/
structure VideoEnv where
  fileExists : Bool
  isFile : Bool
  probe : ProbeResult
  ffmpegOk : Bool
deriving DecidableEq

/-- Observable outcome of one `extract_frames` call: the exception it raises
(if any), the computed `target_fps`, and which side effects happened —
whether the ffprobe subprocess ran (inside `_get_video_metadata`, line 73),
whether `output_dir.mkdir` ran (line 94), and whether the ffmpeg extraction
subprocess ran (line 105). -/
structure ExtractOutcome where
  raised : Option PyErr
  target_fps : Option ℚ
  probeInvoked : Bool
  mkdirCalled : Bool
  ranFfmpeg : Bool
deriving DecidableEq

/-- `extract_frames`, app.py lines 62-113, in source order: existence and
is-file checks (67-70), metadata probe (73), rate planning (76-88), soft
abort on nonpositive target fps (90-92), output directory creation (94),
ffmpeg invocation with failure wrapped as
`RuntimeError("FFmpeg failed during extraction.")` (104-109).  The outer
`except` (111-113) logs and re-raises the same exception, so raised
exceptions pass through unchanged. -/
def extract_frames (env : VideoEnv) (num_frames : Option ℤ) (interval_sec : Option ℚ) :
    ExtractOutcome :=
  if !env.fileExists then
    ⟨some (PyErr.fileNotFound "Video file not found at"), none, false, false, false⟩
  else if !env.isFile then
    ⟨some (PyErr.valueError "Provided path is not a file"), none, false, false, false⟩
  else
    match get_video_metadata env.fileExists env.probe with
    | Except.error e => ⟨some e, none, true, false, false⟩
    | Except.ok meta =>
      match plan_target_fps num_frames interval_sec meta.duration_s with
      | Except.error e => ⟨some e, none, true, false, false⟩
      | Except.ok tfps =>
        if tfps ≤ 0 then ⟨none, some tfps, true, false, false⟩
        else if env.ffmpegOk then ⟨none, some tfps, true, true, true⟩
        else ⟨some (PyErr.runtimeError "FFmpeg failed during extraction."), some tfps, true, true, true⟩

/-! ## Job Driver (`main`, extract branch, app.py lines 185-218) -/

/-- JSON values, for the batch manifest. -/
inductive JVal where
  | jnull
  | jbool (b : Bool)
  | jnum (q : ℚ)
  | jstr (s : String)
  | jarr (items : List JVal)
  | jobj (fields : List (String × JVal))

/-- Dict lookup (`data['videos']`). -/
def lookupField (fields : List (String × JVal)) (k : String) : Option JVal :=
  (fields.find? (fun p => p.1 == k)).map Prod.snd

/-- `[Path(p) for p in ...]` requires every entry to be a string (a non-string
entry makes `Path(p)` raise, which the driver's `except` tuple does not catch
— fatal either way). -/
def asStrings : List JVal → Option (List String)
  | [] => some []
  | JVal.jstr s :: rest => (asStrings rest).map (fun l => s :: l)
  | _ => none

/-- app.py lines 198-200: the manifest must be an object with a `"videos"`
key holding a list of path strings; `none` covers every malformed shape
(missing key, non-list value, non-object top level, non-string entry), all of
which abort the invocation with a non-zero exit (`ValueError` caught at line
201 and `sys.exit(1)`, or an uncaught `TypeError`, which also terminates the
process with a non-zero status before any video is processed). -/
def manifestVideos : JVal → Option (List String)
  | JVal.jobj fields =>
    match lookupField fields "videos" with
    | some (JVal.jarr l) => asStrings l
    | _ => none
  | _ => none

/-- A `pathlib.Path` as its nonempty components (empty pieces of the string
are collapsed, as pathlib does). -/
def pathOfString (s : String) : List String :=
  ((splitSlash s.data).map (fun cs => String.mk cs)).filter (fun c => !(c == ""))

/-- Index of the last `'.'` in a list of characters (`name.rfind('.')`). -/
def lastDotIdx (cs : List Char) : Option ℕ :=
  ((List.range cs.length).filter (fun i => cs.getD i ' ' == '.')).getLast?

/-- `PurePath.suffix`: the extension of the final component — `name[i:]` for
the last dot index `i` when `0 < i < len(name) - 1`, else `""`. -/
def pathSuffix (s : String) : String :=
  let name := (pathOfString s).getLastD ""
  match lastDotIdx name.data with
  | some i => if 0 < i ∧ i < name.data.length - 1 then String.mk (name.data.drop i) else ""
  | none => ""

/-- One processed video as the driver sees it: the video path, the output
directory handed to `extract_frames`, and whether that call raised. -/
structure VideoJob where
  video : List String
  outDir : List String
  succeeded : Bool
deriving DecidableEq

/-- app.py lines 193-205: the `--path` argument names a batch manifest when
its suffix lowercases to `.json` (line 193); the manifest must then load and
validate (lines 195-203, `none` = fatal); otherwise the path itself is the
single video (line 205). -/
def resolveVideos (inputPath : String) (manifest : Option JVal) :
    Option (List (List String)) :=
  if toLowerStr (pathSuffix inputPath) == ".json" then
    match manifest with
    | none => none
    | some j => (manifestVideos j).map (fun vs => vs.map pathOfString)
  else some [pathOfString inputPath]

/-- app.py lines 209-216, one loop iteration: the output directory is the
per-video default `<parent>/frames` (line 211) unless exactly one video is
being processed and `--output_dir` is truthy (lines 212-214); the job
succeeds iff `extract_frames` does not raise (the `except` at 217-218 logs
and continues). -/
def jobFor (vcount : ℕ) (output_dir : Option String) (num_frames : Option ℤ)
    (interval_sec : Option ℚ) (envOf : List String → VideoEnv) (v : List String) :
    VideoJob :=
  ⟨v,
    if vcount == 1 && optTruthy output_dir then pathOfString (output_dir.getD "")
    else v.dropLast ++ ["frames"],
    (extract_frames (envOf v) num_frames interval_sec).raised == none⟩

/-- The `extract` branch of `main`, app.py lines 185-218.  Inputs: the
`--path` argument with whether it exists, the parsed manifest content
(`none` = unreadable/unparseable, only consulted when the suffix is
`.json`), the optional `--output_dir`, the sampling-mode arguments, and a
per-video environment.  Output: the process exit code and the ordered list
of per-video jobs. -/
def mainExtract (inputPath : String) (inputExists : Bool) (manifest : Option JVal)
    (output_dir : Option String) (num_frames : Option ℤ) (interval_sec : Option ℚ)
    (envOf : List String → VideoEnv) : ℕ × List VideoJob :=
  if !inputExists then (1, [])
  else
    match resolveVideos inputPath manifest with
    | none => (1, [])
    | some vs => (0, vs.map (jobFor vs.length output_dir num_frames interval_sec envOf))

/-! ## Frame Cleaner (`delete_frames`, app.py lines 116-155) -/

/-- A filesystem path, as components. -/
abbrev FPath := List String

/-- A filesystem snapshot: which paths are directories and which are files.
Only the parts `delete_frames` touches are modelled. -/
structure FS where
  dirs : List FPath
  files : List FPath
deriving DecidableEq

/-- `path.name.lower()`. -/
def nameLower (p : FPath) : String := toLowerStr (p.getLastD "")

/-- Direct child: one component below `d`. -/
def isDirectChild (d f : FPath) : Bool :=
  f.length == d.length + 1 && decide (d <+: f)

/-- `*.png` glob pattern on a final component (case-sensitive, POSIX glob
semantics: `*` may match the empty string). -/
def isPngName (s : String) : Bool := strEndsWith s ".png"

/-- An entry the `frames_dir_to_clean.glob("*.png")` call matches:
a direct child whose name ends in `.png`. -/
def isPngChild (d f : FPath) : Bool := isDirectChild d f && isPngName (f.getLastD "")

/-- The `.png` files directly inside `d`. -/
def FS.pngFiles (fs : FS) (d : FPath) : List FPath := fs.files.filter (isPngChild d)

/-- Everything `glob("*.png")` yields in `d`: matching files and matching
directories (pathlib's glob does not distinguish them). -/
def FS.pngEntries (fs : FS) (d : FPath) : List FPath :=
  fs.files.filter (isPngChild d) ++ fs.dirs.filter (isPngChild d)

/-- `list(d.iterdir())`: all direct children. -/
def FS.childEntries (fs : FS) (d : FPath) : List FPath :=
  fs.files.filter (isDirectChild d) ++ fs.dirs.filter (isDirectChild d)

/-- `shutil.rmtree(d)`: removes `d` and everything below it. -/
def FS.removeTree (fs : FS) (d : FPath) : FS :=
  ⟨fs.dirs.filter (fun p => !(decide (d <+: p))), fs.files.filter (fun p => !(decide (d <+: p)))⟩

/-- app.py lines 125-132: clean the target itself when its name is (case-
insensitively) `frames`; otherwise prefer an existing `frames` subdirectory;
otherwise fall back to the target itself. -/
def resolveDir (fs : FS) (t : FPath) : FPath :=
  if t ∈ fs.dirs ∧ ¬ nameLower t = "frames" then
    if (t ++ ["frames"]) ∈ fs.dirs then t ++ ["frames"] else t
  else t

/-- Result of a `delete_frames` call: normal return or a raised `ValueError`. -/
inductive DelResult where
  | ok
  | err (msg : String)
deriving DecidableEq

/-- app.py lines 144-148: `os.remove` on each glob match.  Removing a file
succeeds; a matching directory makes `os.remove` raise `OSError`, which is
caught and skipped (line 147-148), so directories survive. -/
def afterDelete (fs : FS) (d : FPath) : FS :=
  ⟨fs.dirs, fs.files.filter (fun f => !(isPngChild d f))⟩

/-- app.py lines 150-155: after deleting, remove the cleaned directory when
its name is `frames` and it is now empty (`shutil.rmtree`). -/
def delete_core (fs : FS) (d : FPath) : FS :=
  if nameLower d = "frames" ∧ (afterDelete fs d).childEntries d = [] then
    (afterDelete fs d).removeTree d
  else afterDelete fs d

/-- `delete_frames`, app.py lines 116-155: missing path is a warned no-op
(121-123); resolve the directory to clean (125-132); a resolved non-directory
raises `ValueError` (134-135); no `.png` glob matches is an early return
(137-141); otherwise delete the matches and conditionally prune (143-155). -/
def delete_frames (fs : FS) (t : FPath) : FS × DelResult :=
  if ¬ (t ∈ fs.dirs ∨ t ∈ fs.files) then (fs, DelResult.ok)
  else if ¬ resolveDir fs t ∈ fs.dirs then
    (fs, DelResult.err "Resolved path is not a directory")
  else if fs.pngEntries (resolveDir fs t) = [] then (fs, DelResult.ok)
  else (delete_core fs (resolveDir fs t), DelResult.ok)

/-! ## Helper lemmas: frame-rate parsing -/

theorem splitSlash_ne_nil (cs : List Char) : splitSlash cs ≠ [] := by
  induction cs with
  | nil => simp [splitSlash]
  | cons c r ih =>
    simp only [splitSlash]
    split
    · simp
    · cases h : splitSlash r <;> simp

theorem splitSlash_pair_contains (cs : List Char) (a b : List Char)
    (h : splitSlash cs = [a, b]) : cs.contains '/' = true := by
  induction cs generalizing a b with
  | nil => simp [splitSlash] at h
  | cons c r ih =>
    simp only [splitSlash] at h
    by_cases hc : c = '/'
    · subst hc
      simp [List.contains_cons]
    · rw [if_neg hc] at h
      cases hsp : splitSlash r with
      | nil => exact absurd hsp (splitSlash_ne_nil r)
      | cons h0 t0 =>
        rw [hsp] at h
        have h2 : t0 = [b] := (List.cons.inj h).2
        have hcont : r.contains '/' = true := ih h0 b (by rw [hsp, h2])
        simp only [List.contains_cons, Bool.or_eq_true, beq_iff_eq]
        exact Or.inr hcont

theorem parse_pair_contains (s : String) (nd : ℤ × ℤ)
    (h : parse_frame_rate_pair s = some nd) : containsSlash s = true := by
  unfold parse_frame_rate_pair at h
  unfold containsSlash
  cases hsp : splitSlash s.data with
  | nil => exact absurd hsp (splitSlash_ne_nil s.data)
  | cons a t =>
    rw [hsp] at h
    cases t with
    | nil => simp at h
    | cons b t2 =>
      cases t2 with
      | nil => exact splitSlash_pair_contains s.data a b hsp
      | cons _ _ => simp at h

theorem parse_pair_truthy (s : String) (nd : ℤ × ℤ)
    (h : parse_frame_rate_pair s = some nd) : strTruthy s = true := by
  by_cases hs : s = ""
  · subst hs
    simp [parse_frame_rate_pair, splitSlash] at h
  · simp [strTruthy, hs]

theorem parse_rate_str_of_pair (s : String) (n d : ℤ)
    (h : parse_frame_rate_pair s = some (n, d)) :
    parse_rate_str s = Except.ok (if d = 0 then 0 else (n : ℚ) / d) := by
  unfold parse_rate_str
  rw [h]

theorem parse_fps_of_pair (s : String) (r : Option String) (n d : ℤ)
    (h : parse_frame_rate_pair s = some (n, d)) :
    parse_fps (some s) r = Except.ok (if d = 0 then 0 else (n : ℚ) / d) := by
  simp only [parse_fps]
  rw [parse_pair_truthy s (n, d) h, parse_pair_contains s (n, d) h]
  simp only [Bool.and_self, if_true]
  exact parse_rate_str_of_pair s n d h

theorem fps_fallback_of_pair (s : String) (n d : ℤ)
    (h : parse_frame_rate_pair s = some (n, d)) :
    fps_fallback (some s) = Except.ok (if d = 0 then 0 else (n : ℚ) / d) := by
  simp only [fps_fallback]
  rw [parse_pair_truthy s (n, d) h, parse_pair_contains s (n, d) h]
  simp only [Bool.and_self, if_true]
  exact parse_rate_str_of_pair s n d h

/-! ## Claims about frame-rate parsing and rate planning -/

/-- C1 (counterexample): with `avg_frame_rate = "30/0"` (denominator 0) and
`r_frame_rate = "25/1"`, the code yields fps 0.0 and does NOT fall back to
`r_frame_rate` (whose own parse would give 25), contradicting the claim that
a zero denominator triggers the fallback. -/
theorem C1_counterexample :
    parse_fps (some "30/0") (some "25/1") = Except.ok 0 ∧
    fps_fallback (some "25/1") = Except.ok 25 ∧
    (Except.ok (0 : ℚ) : Except Unit ℚ) ≠ Except.ok 25 := by
  refine ⟨by decide, ?_, by decide⟩
  rw [fps_fallback_of_pair "25/1" 25 1 (by decide)]
  norm_num

/-- C1 (amended): when `avg_frame_rate` has the form `"num/den"`, the parsed
fps is num/den for den ≠ 0 and 0.0 for den = 0 — in both cases without
consulting `r_frame_rate`; the fallback to `r_frame_rate` (parsed the same
way) happens exactly when `avg_frame_rate` is absent; if both are unusable
the fps is 0.0. -/
theorem C1_fps_parse_amended (s : String) (r : Option String) (n d : ℤ) :
    (parse_frame_rate_pair s = some (n, d) →
      parse_fps (some s) r = Except.ok (if d = 0 then 0 else (n : ℚ) / d)) ∧
    parse_fps none r = fps_fallback r ∧
    parse_fps none none = Except.ok 0 :=
  ⟨fun h => parse_fps_of_pair s r n d h, rfl, by decide⟩

/-- C1 witness: `"30000/1001"` parses to the pair (30000, 1001) and the fps
comes out as 30000/1001 (≈ 29.97). -/
theorem C1_fps_parse_amended_witness :
    parse_frame_rate_pair "30000/1001" = some (30000, 1001) ∧
    parse_fps (some "30000/1001") none = Except.ok ((30000 : ℚ) / 1001) := by
  refine ⟨by decide, ?_⟩
  rw [(C1_fps_parse_amended "30000/1001" none 30000 1001).1 (by decide)]
  norm_num

/-- C3: in frame_count mode the planned rate is `num_frames / duration` for
positive duration and exactly 1.0 for nonpositive duration; in the latter
case `extract_frames` does not raise any duration-related error — the only
exception that can still occur is the ffmpeg extraction failure. -/
theorem C3_frame_count_rate (n : ℤ) (intv : Option ℚ) (D : ℚ) (env : VideoEnv)
    (meta : VideoMetadata) :
    (0 < D → plan_target_fps (some n) intv D = Except.ok ((n : ℚ) / D)) ∧
    (D ≤ 0 → plan_target_fps (some n) intv D = Except.ok 1) ∧
    (env.fileExists = true → env.isFile = true →
      get_video_metadata env.fileExists env.probe = Except.ok meta →
      meta.duration_s ≤ 0 →
      (extract_frames env (some n) intv).target_fps = some 1 ∧
      ((extract_frames env (some n) intv).raised = none ∨
        (extract_frames env (some n) intv).raised =
          some (PyErr.runtimeError "FFmpeg failed during extraction."))) := by
  refine ⟨fun hD => ?_, fun hD => ?_, fun hf hif hm hdur => ?_⟩
  · simp only [plan_target_fps, if_neg (not_le.mpr hD)]
  · simp only [plan_target_fps, if_pos hD]
  · rw [hf] at hm
    have hplan : plan_target_fps (some n) intv meta.duration_s = Except.ok 1 := by
      simp only [plan_target_fps, if_pos hdur]
    have h1 : ¬ (1 : ℚ) ≤ 0 := by norm_num
    cases hok : env.ffmpegOk <;>
      simp [extract_frames, hf, hif, hm, hplan, hok, h1]

/-- C3 witness: duration 10 with 5 frames plans 5/10 fps; duration 0 plans
1.0; and on a real (probed) zero-duration video the extraction computes
target fps 1 without raising. -/
theorem C3_frame_count_rate_witness :
    (0 : ℚ) < 10 ∧
    plan_target_fps (some 5) none 10 = Except.ok ((5 : ℚ) / 10) ∧
    plan_target_fps (some 5) none 0 = Except.ok 1 ∧
    (extract_frames
        ⟨true, true, ProbeResult.success [⟨"video", none, some 640, some 480, none, none⟩] none, true⟩
        (some 5) none).target_fps = some 1 := by
  refine ⟨by norm_num, ?_, ?_, ?_⟩
  · exact (C3_frame_count_rate 5 none 10 ⟨true, true, ProbeResult.failure, true⟩ ⟨0, 0, 0, 0⟩).1
      (by norm_num)
  · exact (C3_frame_count_rate 5 none 0 ⟨true, true, ProbeResult.failure, true⟩ ⟨0, 0, 0, 0⟩).2.1
      (by norm_num)
  · exact ((C3_frame_count_rate 5 none 0
        ⟨true, true, ProbeResult.success [⟨"video", none, some 640, some 480, none, none⟩] none, true⟩
        ⟨0, 640, 480, 0⟩).2.2 rfl rfl (by decide) (by norm_num)).1

/-- C4 (counterexample): with interval_sec = 0 the validation error is indeed
raised, but only after the metadata-probe subprocess has already been
invoked (`probeInvoked = true`); moreover when that probe fails, the raised
error is the probe's RuntimeError, not the interval ValueError — so the
invalid-input error is not raised "before any external subprocess is
invoked". -/
theorem C4_counterexample :
    (extract_frames
        ⟨true, true, ProbeResult.success [⟨"video", none, some 640, some 480, none, none⟩] none, true⟩
        none (some 0)).raised =
      some (PyErr.valueError "Interval seconds must be greater than 0.") ∧
    (extract_frames
        ⟨true, true, ProbeResult.success [⟨"video", none, some 640, some 480, none, none⟩] none, true⟩
        none (some 0)).probeInvoked = true ∧
    (extract_frames ⟨true, true, ProbeResult.failure, true⟩ none (some 0)).raised =
      some (PyErr.runtimeError "Could not get video metadata.") := by decide

/-- C4 (amended): in interval mode with a successfully probed video, an
interval ≤ 0 raises the validation ValueError before the output directory is
created and before the ffmpeg extraction subprocess runs (the metadata-probe
subprocess has already run by then); a positive interval plans rate 1/I. -/
theorem C4_interval_amended (env : VideoEnv) (i : ℚ) (meta : VideoMetadata)
    (h1 : env.fileExists = true) (h2 : env.isFile = true)
    (h3 : get_video_metadata env.fileExists env.probe = Except.ok meta) :
    (i ≤ 0 →
      (extract_frames env none (some i)).raised =
        some (PyErr.valueError "Interval seconds must be greater than 0.") ∧
      (extract_frames env none (some i)).mkdirCalled = false ∧
      (extract_frames env none (some i)).ranFfmpeg = false) ∧
    (0 < i → (extract_frames env none (some i)).target_fps = some (1 / i)) := by
  rw [h1] at h3
  constructor
  · intro hle
    have hplan : plan_target_fps none (some i) meta.duration_s =
        Except.error (PyErr.valueError "Interval seconds must be greater than 0.") := by
      simp only [plan_target_fps, if_pos hle]
    simp [extract_frames, h1, h2, h3, hplan]
  · intro hpos
    have hplan : plan_target_fps none (some i) meta.duration_s = Except.ok (1 / i) := by
      simp only [plan_target_fps, if_neg (not_le.mpr hpos)]
    have hfps : ¬ (1 / i ≤ 0) := by
      rw [not_le]
      positivity
    cases hok : env.ffmpegOk <;>
      simp [extract_frames, h1, h2, h3, hplan, hok, hfps, not_le.mpr hpos]

/-- C4 witness: at interval 0 on a probed video the ValueError is raised with
no mkdir and no extraction subprocess; at interval 2 the planned rate is 1/2. -/
theorem C4_interval_amended_witness :
    ((0 : ℚ) ≤ 0) ∧
    (extract_frames
        ⟨true, true, ProbeResult.success [⟨"video", none, some 640, some 480, none, none⟩] none, true⟩
        none (some 0)).raised =
      some (PyErr.valueError "Interval seconds must be greater than 0.") ∧
    ((0 : ℚ) < 2) ∧
    (extract_frames
        ⟨true, true, ProbeResult.success [⟨"video", none, some 640, some 480, none, none⟩] none, true⟩
        none (some 2)).target_fps = some (1 / 2 : ℚ) := by
  refine ⟨le_refl 0, ?_, by norm_num, ?_⟩
  · exact ((C4_interval_amended
      ⟨true, true, ProbeResult.success [⟨"video", none, some 640, some 480, none, none⟩] none, true⟩
      0 ⟨0, 640, 480, 0⟩ rfl rfl (by decide)).1 (le_refl 0)).1
  · exact (C4_interval_amended
      ⟨true, true, ProbeResult.success [⟨"video", none, some 640, some 480, none, none⟩] none, true⟩
      2 ⟨0, 640, 480, 0⟩ rfl rfl (by decide)).2 (by norm_num)

/-! ## Claims about the Metadata Prober's error taxonomy -/

/-- C9 (counterexample): for an existing file whose probe response has no
video stream, the prober raises the same wrapped
`RuntimeError("Could not get video metadata.")` used for an external-tool
failure — not a distinct invalid-input (ValueError) at the caller boundary. -/
theorem C9_counterexample :
    get_video_metadata true
        (ProbeResult.success [⟨"audio", none, none, none, none, none⟩] none) =
      Except.error (PyErr.runtimeError "Could not get video metadata.") ∧
    PyErr.isValueError (PyErr.runtimeError "Could not get video metadata.") = false ∧
    get_video_metadata true ProbeResult.failure =
      Except.error (PyErr.runtimeError "Could not get video metadata.") := by decide

/-- C9 (amended): with no video stream the body raises ValueError internally
(line 29), but the blanket `except Exception` converts it to the same
RuntimeError used for tool failures, so at the caller boundary only the
not-found error for a missing file stays distinct. -/
theorem C9_no_stream_amended (streams : List StreamInfo) (fd : Option String)
    (pr : ProbeResult)
    (h : streams.find? (fun s => s.codec_type == "video") = none) :
    metadata_body streams fd = Except.error (PyErr.valueError "No video stream found") ∧
    get_video_metadata true (ProbeResult.success streams fd) =
      Except.error (PyErr.runtimeError "Could not get video metadata.") ∧
    get_video_metadata false pr = Except.error (PyErr.fileNotFound "Video file not found") := by
  have hbody : metadata_body streams fd =
      Except.error (PyErr.valueError "No video stream found") := by
    simp only [metadata_body, h]
  refine ⟨hbody, ?_, rfl⟩
  simp [get_video_metadata, hbody]

/-- C9 witness: a concrete audio-only probe response. -/
theorem C9_no_stream_amended_witness :
    List.find? (fun s => s.codec_type == "video")
        [(⟨"audio", none, none, none, none, none⟩ : StreamInfo)] = none ∧
    metadata_body [(⟨"audio", none, none, none, none, none⟩ : StreamInfo)] none =
      Except.error (PyErr.valueError "No video stream found") :=
  ⟨by decide,
    (C9_no_stream_amended [⟨"audio", none, none, none, none, none⟩] none
      ProbeResult.failure (by decide)).1⟩

/-! ## Claims about the Job Driver -/

/-- C2 (counterexample): a batch manifest listing exactly one video, with
`--output_dir custom` supplied, sends the frames to `custom` — the
batch-manifest mode does NOT always ignore the override in favor of the
per-video default `d/frames`. -/
theorem C2_counterexample :
    mainExtract "batch.json" true
        (some (JVal.jobj [("videos", JVal.jarr [JVal.jstr "d/v1.mp4"])])) (some "custom")
        (some 10) none (fun _ => ⟨true, true, ProbeResult.failure, true⟩) =
      (0, [⟨["d", "v1.mp4"], ["custom"], false⟩]) ∧
    (["custom"] : List String) ≠ ["d", "frames"] := by decide

/-- C2 (amended): each processed video's output directory is the supplied
override exactly when one video is being processed (whether it came from a
literal path or from a one-entry manifest) and the override is truthy;
otherwise it is the video's own `<parent>/frames`. -/
theorem C2_output_dir_amended (inputPath : String) (inputExists : Bool)
    (manifest : Option JVal) (od : Option String) (nf : Option ℤ) (intv : Option ℚ)
    (envOf : List String → VideoEnv) (job : VideoJob)
    (hjob : job ∈ (mainExtract inputPath inputExists manifest od nf intv envOf).2) :
    job.outDir =
      if (mainExtract inputPath inputExists manifest od nf intv envOf).2.length = 1 ∧
          optTruthy od = true
      then pathOfString (od.getD "")
      else job.video.dropLast ++ ["frames"] := by
  cases inputExists with
  | false => simp [mainExtract] at hjob
  | true =>
    cases hr : resolveVideos inputPath manifest with
    | none => simp [mainExtract, hr] at hjob
    | some vs =>
      have hme : mainExtract inputPath true manifest od nf intv envOf =
          (0, vs.map (jobFor vs.length od nf intv envOf)) := by
        simp [mainExtract, hr]
      rw [hme] at hjob ⊢
      simp only [List.mem_map] at hjob
      obtain ⟨v, hv, rfl⟩ := hjob
      simp only [jobFor, List.length_map]
      by_cases hc : vs.length = 1 ∧ optTruthy od = true
      · rw [if_pos hc]
        have : (vs.length == 1 && optTruthy od) = true := by
          simp [hc.1, hc.2]
        rw [this]
        simp
      · rw [if_neg hc]
        have : (vs.length == 1 && optTruthy od) = false := by
          rcases Decidable.not_and_iff_or_not.mp hc with h | h
          · simp [Bool.and_eq_false_iff, h]
          · simp [Bool.and_eq_false_iff, h]
        rw [this]
        simp

/-- C2 witness: single-video invocation with `--output_dir out`: the job for
`d/v.mp4` lands in `out`, matching the amended rule with one video and a
truthy override. -/
theorem C2_output_dir_amended_witness :
    (⟨["d", "v.mp4"], ["out"], false⟩ : VideoJob) ∈
      (mainExtract "d/v.mp4" true none (some "out") (some 5) none
        (fun _ => ⟨true, true, ProbeResult.failure, true⟩)).2 ∧
    (⟨["d", "v.mp4"], ["out"], false⟩ : VideoJob).outDir = pathOfString "out" := by
  refine ⟨by decide, ?_⟩
  have h := C2_output_dir_amended "d/v.mp4" true none (some "out") (some 5) none
    (fun _ => ⟨true, true, ProbeResult.failure, true⟩) ⟨["d", "v.mp4"], ["out"], false⟩
    (by decide)
  rw [h]
  decide

/-- C5: when the `--path` suffix is `.json` and the manifest is unparseable
or lacks a `"videos"` key holding a list of strings, the whole invocation is
fatal: exit code 1 and no video processed. -/
theorem C5_manifest_fatal (inputPath : String) (manifest : Option JVal) (od : Option String)
    (nf : Option ℤ) (intv : Option ℚ) (envOf : List String → VideoEnv)
    (hjson : toLowerStr (pathSuffix inputPath) = ".json")
    (hbad : manifest.bind manifestVideos = none) :
    mainExtract inputPath true manifest od nf intv envOf = (1, []) := by
  have hr : resolveVideos inputPath manifest = none := by
    unfold resolveVideos
    rw [hjson]
    cases manifest with
    | none => simp
    | some j =>
      simp only [Option.bind] at hbad
      simp [hbad]
  simp [mainExtract, hr]

/-- C5 witness: the manifest `{"clips": []}` (wrong key) is fatal — exit 1,
nothing processed. -/
theorem C5_manifest_fatal_witness :
    toLowerStr (pathSuffix "batch.json") = ".json" ∧
    (some (JVal.jobj [("clips", JVal.jarr [])])).bind manifestVideos = none ∧
    mainExtract "batch.json" true (some (JVal.jobj [("clips", JVal.jarr [])])) none
      (some 10) none (fun _ => ⟨true, true, ProbeResult.failure, true⟩) = (1, []) :=
  ⟨by decide, by decide,
    C5_manifest_fatal "batch.json" (some (JVal.jobj [("clips", JVal.jarr [])])) none
      (some 10) none (fun _ => ⟨true, true, ProbeResult.failure, true⟩) (by decide) (by decide)⟩

/-- C6: a well-formed batch run processes the manifest's videos in listed
order, one job per video; the exit code is 0 regardless of per-video
failures, and each job's success records exactly whether its own
`extract_frames` call raised. -/
theorem C6_batch_order (inputPath : String) (j : JVal) (vs : List String)
    (od : Option String) (nf : Option ℤ) (intv : Option ℚ)
    (envOf : List String → VideoEnv)
    (hjson : toLowerStr (pathSuffix inputPath) = ".json")
    (hvs : manifestVideos j = some vs) :
    (mainExtract inputPath true (some j) od nf intv envOf).1 = 0 ∧
    (mainExtract inputPath true (some j) od nf intv envOf).2.map VideoJob.video =
      vs.map pathOfString ∧
    (mainExtract inputPath true (some j) od nf intv envOf).2.map VideoJob.succeeded =
      vs.map (fun v => (extract_frames (envOf (pathOfString v)) nf intv).raised == none) := by
  have hr : resolveVideos inputPath (some j) = some (vs.map pathOfString) := by
    unfold resolveVideos
    rw [hjson]
    simp [hvs]
  refine ⟨by simp [mainExtract, hr], ?_, ?_⟩ <;>
    simp [mainExtract, hr, jobFor, List.map_map, Function.comp]

/-- C6 witness: the spec's scenario — `{"videos": ["v1.mp4", "v2.mp4"]}` with
v1's probe failing and v2 succeeding: exit code 0, both videos attempted in
order, v1 recorded as failed and v2 as succeeded. -/
theorem C6_batch_order_witness :
    manifestVideos (JVal.jobj [("videos", JVal.jarr [JVal.jstr "v1.mp4", JVal.jstr "v2.mp4"])]) =
      some ["v1.mp4", "v2.mp4"] ∧
    (mainExtract "batch.json" true
        (some (JVal.jobj [("videos", JVal.jarr [JVal.jstr "v1.mp4", JVal.jstr "v2.mp4"])])) none
        (some 10) none
        (fun v =>
          if v = ["v1.mp4"] then ⟨true, true, ProbeResult.failure, true⟩
          else
            ⟨true, true,
              ProbeResult.success [⟨"video", none, some 640, some 480, none, none⟩] none,
              true⟩)).1 = 0 ∧
    (mainExtract "batch.json" true
        (some (JVal.jobj [("videos", JVal.jarr [JVal.jstr "v1.mp4", JVal.jstr "v2.mp4"])])) none
        (some 10) none
        (fun v =>
          if v = ["v1.mp4"] then ⟨true, true, ProbeResult.failure, true⟩
          else
            ⟨true, true,
              ProbeResult.success [⟨"video", none, some 640, some 480, none, none⟩] none,
              true⟩)).2.map VideoJob.succeeded = [false, true] := by
  refine ⟨by decide, ?_, ?_⟩
  · exact (C6_batch_order "batch.json"
      (JVal.jobj [("videos", JVal.jarr [JVal.jstr "v1.mp4", JVal.jstr "v2.mp4"])])
      ["v1.mp4", "v2.mp4"] none (some 10) none
      (fun v =>
        if v = ["v1.mp4"] then ⟨true, true, ProbeResult.failure, true⟩
        else
          ⟨true, true, ProbeResult.success [⟨"video", none, some 640, some 480, none, none⟩] none,
            true⟩)
      (by decide) (by decide)).1
  · exact ((C6_batch_order "batch.json"
      (JVal.jobj [("videos", JVal.jarr [JVal.jstr "v1.mp4", JVal.jstr "v2.mp4"])])
      ["v1.mp4", "v2.mp4"] none (some 10) none
      (fun v =>
        if v = ["v1.mp4"] then ⟨true, true, ProbeResult.failure, true⟩
        else
          ⟨true, true, ProbeResult.success [⟨"video", none, some 640, some 480, none, none⟩] none,
            true⟩)
      (by decide) (by decide)).2.2).trans (by decide)

/-! ## Helper lemmas: the Frame Cleaner -/

/-- Well-formed filesystem snapshot, as a real filesystem guarantees: no path
is both a file and a directory, and every proper nonempty prefix (ancestor)
of an entry is itself a directory. -/
def FS.Wf (fs : FS) : Prop :=
  (∀ p ∈ fs.files, p ∉ fs.dirs) ∧
  (∀ p ∈ fs.dirs, ∀ n, n < p.length → 0 < n → p.take n ∈ fs.dirs) ∧
  (∀ p ∈ fs.files, ∀ n, n < p.length → 0 < n → p.take n ∈ fs.dirs)

theorem filter_not_self_filter (p : α → Bool) (l : List α) :
    (l.filter (fun a => !(p a))).filter p = [] := by
  rw [List.filter_filter]
  simp

theorem filter_sub_nil (p q : α → Bool) (l : List α) (h : l.filter p = []) :
    (l.filter q).filter p = [] := by
  rw [List.filter_eq_nil_iff] at h ⊢
  intro a ha
  exact h a (List.mem_filter.mp ha).1

theorem pngFiles_eq_nil_of_entries (fs : FS) (d : FPath)
    (h : fs.pngEntries d = []) : fs.pngFiles d = [] :=
  (List.append_eq_nil.mp h).1

theorem isPngChild_direct {d f : FPath} (h : isPngChild d f = true) :
    isDirectChild d f = true := by
  simp only [isPngChild, Bool.and_eq_true] at h
  exact h.1

theorem delete_frames_not_exists (fs : FS) (t : FPath)
    (h : ¬ (t ∈ fs.dirs ∨ t ∈ fs.files)) :
    delete_frames fs t = (fs, DelResult.ok) := by
  unfold delete_frames
  rw [if_pos h]

theorem delete_frames_err (fs : FS) (t : FPath) (hex : t ∈ fs.dirs ∨ t ∈ fs.files)
    (hnd : resolveDir fs t ∉ fs.dirs) :
    delete_frames fs t = (fs, DelResult.err "Resolved path is not a directory") := by
  unfold delete_frames
  rw [if_neg (not_not_intro hex), if_pos hnd]

theorem delete_frames_empty (fs : FS) (t : FPath) (hex : t ∈ fs.dirs ∨ t ∈ fs.files)
    (hd : resolveDir fs t ∈ fs.dirs) (hpe : fs.pngEntries (resolveDir fs t) = []) :
    delete_frames fs t = (fs, DelResult.ok) := by
  unfold delete_frames
  rw [if_neg (not_not_intro hex), if_neg (not_not_intro hd), if_pos hpe]

theorem delete_frames_core (fs : FS) (t : FPath) (hex : t ∈ fs.dirs ∨ t ∈ fs.files)
    (hd : resolveDir fs t ∈ fs.dirs) (hpe : fs.pngEntries (resolveDir fs t) ≠ []) :
    delete_frames fs t = (delete_core fs (resolveDir fs t), DelResult.ok) := by
  unfold delete_frames
  rw [if_neg (not_not_intro hex), if_neg (not_not_intro hd), if_neg hpe]

theorem delete_core_noprune (fs : FS) (d : FPath)
    (h : ¬ (nameLower d = "frames" ∧ (afterDelete fs d).childEntries d = [])) :
    delete_core fs d = afterDelete fs d := by
  unfold delete_core
  rw [if_neg h]

theorem delete_core_prune (fs : FS) (d : FPath)
    (h : nameLower d = "frames" ∧ (afterDelete fs d).childEntries d = []) :
    delete_core fs d = (afterDelete fs d).removeTree d := by
  unfold delete_core
  rw [if_pos h]

theorem afterDelete_eq_self (fs : FS) (d : FPath) (h : fs.pngFiles d = []) :
    afterDelete fs d = fs := by
  unfold afterDelete
  have hf : fs.files.filter (fun f => !(isPngChild d f)) = fs.files := by
    rw [List.filter_eq_self]
    intro a ha
    have := List.filter_eq_nil_iff.mp h a ha
    simp [this]
  rw [hf]

theorem resolveDir_dirs_eq (g fs : FS) (t : FPath) (h : g.dirs = fs.dirs) :
    resolveDir g t = resolveDir fs t := by
  unfold resolveDir
  rw [h]

theorem resolveDir_of_name_frames (fs : FS) (t : FPath) (h : nameLower t = "frames") :
    resolveDir fs t = t := by
  unfold resolveDir
  rw [if_neg (fun hc => hc.2 h)]

theorem resolveDir_of_not_dir (fs : FS) (t : FPath) (h : t ∉ fs.dirs) :
    resolveDir fs t = t := by
  unfold resolveDir
  rw [if_neg (fun hc => h hc.1)]

theorem resolveDir_of_no_sub (fs : FS) (t : FPath)
    (hs : (t ++ ["frames"]) ∉ fs.dirs) : resolveDir fs t = t := by
  unfold resolveDir
  by_cases h : t ∈ fs.dirs ∧ ¬ nameLower t = "frames"
  · rw [if_pos h, if_neg hs]
  · rw [if_neg h]

theorem resolveDir_eq_or (fs : FS) (t : FPath) :
    resolveDir fs t = t ∨
      (resolveDir fs t = t ++ ["frames"] ∧ (t ++ ["frames"]) ∈ fs.dirs) := by
  unfold resolveDir
  by_cases h : t ∈ fs.dirs ∧ ¬ nameLower t = "frames"
  · by_cases hs : (t ++ ["frames"]) ∈ fs.dirs
    · right
      rw [if_pos h, if_pos hs]
      exact ⟨rfl, hs⟩
    · left
      rw [if_pos h, if_neg hs]
  · left
    rw [if_neg h]

theorem childEntries_afterDelete_ne (fs : FS) (d : FPath)
    (hpe : fs.pngEntries d ≠ []) (hpf : fs.pngFiles d = []) :
    (afterDelete fs d).childEntries d ≠ [] := by
  have hdirs : fs.dirs.filter (isPngChild d) ≠ [] := by
    intro hnil
    apply hpe
    unfold FS.pngEntries
    rw [show fs.files.filter (isPngChild d) = [] from hpf, hnil]
    rfl
  obtain ⟨x, hx⟩ := List.exists_mem_of_ne_nil _ hdirs
  have hxd := List.mem_filter.mp hx
  intro hnil
  apply List.not_mem_nil x
  rw [← hnil]
  unfold FS.childEntries afterDelete
  exact List.mem_append_right _
    (List.mem_filter.mpr ⟨hxd.1, isPngChild_direct hxd.2⟩)

theorem delete_core_unchanged (fs : FS) (d : FPath)
    (hpe : fs.pngEntries d ≠ []) (hpf : fs.pngFiles d = []) :
    delete_core fs d = fs := by
  rw [delete_core_noprune fs d
    (fun h => childEntries_afterDelete_ne fs d hpe hpf h.2)]
  exact afterDelete_eq_self fs d hpf

theorem delete_frames_unchanged (fs : FS) (t : FPath)
    (h : fs.pngFiles (resolveDir fs t) = []) :
    (delete_frames fs t).1 = fs := by
  by_cases hex : t ∈ fs.dirs ∨ t ∈ fs.files
  · by_cases hd : resolveDir fs t ∈ fs.dirs
    · by_cases hpe : fs.pngEntries (resolveDir fs t) = []
      · rw [delete_frames_empty fs t hex hd hpe]
      · rw [delete_frames_core fs t hex hd hpe]
        exact delete_core_unchanged fs (resolveDir fs t) hpe h
    · rw [delete_frames_err fs t hex hd]
  · rw [delete_frames_not_exists fs t hex]

theorem delete_frames_noop (fs : FS) (t : FPath)
    (h : fs.pngFiles (resolveDir fs t) = [])
    (hd : resolveDir fs t ∈ fs.dirs ∨ ¬ (t ∈ fs.dirs ∨ t ∈ fs.files)) :
    delete_frames fs t = (fs, DelResult.ok) := by
  rcases hd with hd | hnex
  · by_cases hex : t ∈ fs.dirs ∨ t ∈ fs.files
    · by_cases hpe : fs.pngEntries (resolveDir fs t) = []
      · exact delete_frames_empty fs t hex hd hpe
      · rw [delete_frames_core fs t hex hd hpe,
          delete_core_unchanged fs (resolveDir fs t) hpe h]
    · exact delete_frames_not_exists fs t hex
  · exact delete_frames_not_exists fs t hnex

theorem take_succ_of_prefix {d f : FPath} (hpre : d <+: f) (hlt : d.length < f.length) :
    d <+: f.take (d.length + 1) ∧ (f.take (d.length + 1)).length = d.length + 1 := by
  obtain ⟨s, rfl⟩ := hpre
  have hs : 0 < s.length := by
    rw [List.length_append] at hlt
    omega
  constructor
  · rw [List.take_append_eq_append_take, List.take_of_length_le (by omega)]
    exact List.prefix_append d _
  · rw [List.length_take, List.length_append]
    omega

/-! ## Claims about the Frame Cleaner -/

/-- C10: a cleanup run that finds no `.png` files leaves the filesystem
untouched — in particular an existing, even completely empty, `frames`
directory is kept; and the directory set changes (pruning) only on a run
whose resolved directory actually had `.png` files to delete. -/
theorem C10_empty_frames_kept (fs : FS) (t : FPath) :
    (t ∈ fs.dirs → nameLower t = "frames" → fs.pngFiles t = [] →
      delete_frames fs t = (fs, DelResult.ok)) ∧
    ((delete_frames fs t).1.dirs ≠ fs.dirs → fs.pngFiles (resolveDir fs t) ≠ []) := by
  constructor
  · intro ht hname hpng
    have hres : resolveDir fs t = t := resolveDir_of_name_frames fs t hname
    exact delete_frames_noop fs t (by rw [hres]; exact hpng) (Or.inl (by rw [hres]; exact ht))
  · intro hne hpng
    exact hne (by rw [delete_frames_unchanged fs t hpng])

/-- C10 witness: an existing empty `frames` directory survives cleanup
unchanged. -/
theorem C10_empty_frames_kept_witness :
    (["frames"] : FPath) ∈ FS.dirs ⟨[["frames"]], []⟩ ∧
    nameLower ["frames"] = "frames" ∧
    FS.pngFiles ⟨[["frames"]], []⟩ ["frames"] = [] ∧
    delete_frames ⟨[["frames"]], []⟩ ["frames"] = (⟨[["frames"]], []⟩, DelResult.ok) :=
  ⟨by decide, by decide, by decide,
    (C10_empty_frames_kept ⟨[["frames"]], []⟩ ["frames"]).1 (by decide) (by decide) (by decide)⟩

/-- C7: cleanup deletes exactly the files directly inside the resolved
directory whose name ends in `.png`: the resulting file set is the original
one minus those direct `.png` children, so non-`.png` files and anything
inside nested directories are untouched. -/
theorem C7_cleanup_scope (fs : FS) (t : FPath) (hwf : fs.Wf)
    (hd : resolveDir fs t ∈ fs.dirs) :
    (delete_frames fs t).1.files =
      fs.files.filter (fun f => !(isPngChild (resolveDir fs t) f)) := by
  have hex : t ∈ fs.dirs ∨ t ∈ fs.files := by
    by_contra hnex
    rw [resolveDir_of_not_dir fs t (fun hc => hnex (Or.inl hc))] at hd
    exact hnex (Or.inl hd)
  by_cases hpe : fs.pngEntries (resolveDir fs t) = []
  · rw [delete_frames_empty fs t hex hd hpe]
    have hpf : fs.pngFiles (resolveDir fs t) = [] := pngFiles_eq_nil_of_entries fs _ hpe
    symm
    rw [List.filter_eq_self]
    intro a ha
    have := List.filter_eq_nil_iff.mp hpf a ha
    simp [this]
  · rw [delete_frames_core fs t hex hd hpe]
    by_cases hprune : nameLower (resolveDir fs t) = "frames" ∧
        (afterDelete fs (resolveDir fs t)).childEntries (resolveDir fs t) = []
    · rw [delete_core_prune fs _ hprune]
      show ((afterDelete fs (resolveDir fs t)).files.filter
        (fun p => !(decide (resolveDir fs t <+: p)))) =
        fs.files.filter (fun f => !(isPngChild (resolveDir fs t) f))
      rw [show (afterDelete fs (resolveDir fs t)).files =
        fs.files.filter (fun f => !(isPngChild (resolveDir fs t) f)) from rfl]
      rw [List.filter_eq_self]
      intro a ha
      have haf : a ∈ fs.files := (List.mem_filter.mp ha).1
      simp only [Bool.not_eq_true', decide_eq_false_iff_not]
      intro hpre
      have hne : a ≠ resolveDir fs t := by
        intro h
        exact hwf.1 a haf (h ▸ hd)
      have hlt : (resolveDir fs t).length < a.length := by
        rcases Nat.lt_or_ge (resolveDir fs t).length a.length with h | h
        · exact h
        · exact absurd (hpre.eq_of_length (Nat.le_antisymm hpre.length_le h)).symm hne
      obtain ⟨hpq, hlq⟩ := take_succ_of_prefix hpre hlt
      have hdirect : isDirectChild (resolveDir fs t) (a.take ((resolveDir fs t).length + 1)) = true := by
        simp only [isDirectChild, hlq, Bool.and_eq_true, beq_iff_eq, decide_eq_true_eq]
        exact ⟨trivial, hpq⟩
      by_cases hqa : a.take ((resolveDir fs t).length + 1) = a
      · apply List.not_mem_nil a
        rw [← hprune.2]
        unfold FS.childEntries
        exact List.mem_append_left _ (List.mem_filter.mpr ⟨ha, hqa ▸ hdirect⟩)
      · have hqlt : (resolveDir fs t).length + 1 < a.length := by
          rcases Nat.lt_or_ge ((resolveDir fs t).length + 1) a.length with h | h
          · exact h
          · exact absurd (List.take_of_length_le h) hqa
        have hqdirs : a.take ((resolveDir fs t).length + 1) ∈ fs.dirs :=
          hwf.2.2 a haf _ hqlt (by omega)
        apply List.not_mem_nil (a.take ((resolveDir fs t).length + 1))
        rw [← hprune.2]
        unfold FS.childEntries afterDelete
        exact List.mem_append_right _ (List.mem_filter.mpr ⟨hqdirs, hdirect⟩)
    · rw [delete_core_noprune fs _ hprune]
      rfl

/-- C7 witness: the spec's directory with `a.png`, `b.png`, `c.txt` keeps
only `c.txt` after cleanup. -/
theorem C7_cleanup_scope_witness :
    FS.Wf ⟨[["frames"]], [["frames", "a.png"], ["frames", "b.png"], ["frames", "c.txt"]]⟩ ∧
    (delete_frames ⟨[["frames"]], [["frames", "a.png"], ["frames", "b.png"], ["frames", "c.txt"]]⟩
        ["frames"]).1.files = [["frames", "c.txt"]] := by
  constructor
  · refine ⟨by decide, by decide, by decide⟩
  · exact (C7_cleanup_scope
      ⟨[["frames"]], [["frames", "a.png"], ["frames", "b.png"], ["frames", "c.txt"]]⟩
      ["frames"] ⟨by decide, by decide, by decide⟩ (by decide)).trans (by decide)

/-- C8 (counterexample): delete on parent `p` (holding `p/frames/a.png` and
its own `p/x.png`): the first run cleans and prunes `p/frames`; the second
run then resolves to `p` itself and deletes `p/x.png` — it is not a no-op. -/
theorem C8_counterexample :
    delete_frames ⟨[["p"], ["p", "frames"]], [["p", "frames", "a.png"], ["p", "x.png"]]⟩ ["p"] =
      (⟨[["p"]], [["p", "x.png"]]⟩, DelResult.ok) ∧
    delete_frames ⟨[["p"]], [["p", "x.png"]]⟩ ["p"] = (⟨[["p"]], []⟩, DelResult.ok) ∧
    (⟨[["p"]], [["p", "x.png"]]⟩ : FS) ≠ ⟨[["p"]], []⟩ := by decide

/-- C8 (amended): on a well-formed filesystem, when the first delete run
succeeds and either the target itself is the `frames` directory or the
target directory is left with no direct `.png` files, a second run is a
no-op: it succeeds and changes nothing.  (Without that proviso the second
run can fall back to cleaning the target directory itself and delete its
own `.png` files — the counterexample.) -/
theorem C8_idempotent_amended (fs : FS) (t : FPath) (hwf : fs.Wf)
    (h1 : (delete_frames fs t).2 = DelResult.ok)
    (h2 : nameLower t = "frames" ∨ (delete_frames fs t).1.pngFiles t = []) :
    delete_frames (delete_frames fs t).1 t = ((delete_frames fs t).1, DelResult.ok) := by
  by_cases hex : t ∈ fs.dirs ∨ t ∈ fs.files
  case neg =>
    rw [delete_frames_not_exists fs t hex]
    exact delete_frames_not_exists fs t hex
  case pos =>
  by_cases hd : resolveDir fs t ∈ fs.dirs
  case neg =>
    rw [delete_frames_err fs t hex hd] at h1
    exact absurd h1 (by simp)
  case pos =>
  by_cases hpe : fs.pngEntries (resolveDir fs t) = []
  case pos =>
    rw [delete_frames_empty fs t hex hd hpe]
    exact delete_frames_empty fs t hex hd hpe
  case neg =>
  rw [delete_frames_core fs t hex hd hpe] at h2 ⊢
  by_cases hprune : nameLower (resolveDir fs t) = "frames" ∧
      (afterDelete fs (resolveDir fs t)).childEntries (resolveDir fs t) = []
  case neg =>
    rw [delete_core_noprune fs _ hprune]
    have hdirs : (afterDelete fs (resolveDir fs t)).dirs = fs.dirs := rfl
    apply delete_frames_noop
    · rw [resolveDir_dirs_eq (afterDelete fs (resolveDir fs t)) fs t hdirs]
      exact filter_not_self_filter _ _
    · left
      rw [resolveDir_dirs_eq (afterDelete fs (resolveDir fs t)) fs t hdirs, hdirs]
      exact hd
  case pos =>
  rw [delete_core_prune fs _ hprune] at h2 ⊢
  have hgdirs : ((afterDelete fs (resolveDir fs t)).removeTree (resolveDir fs t)).dirs =
      fs.dirs.filter (fun p => !(decide (resolveDir fs t <+: p))) := rfl
  have hgfiles : ((afterDelete fs (resolveDir fs t)).removeTree (resolveDir fs t)).files =
      (fs.files.filter (fun f => !(isPngChild (resolveDir fs t) f))).filter
        (fun p => !(decide (resolveDir fs t <+: p))) := rfl
  have hdg : resolveDir fs t ∉
      ((afterDelete fs (resolveDir fs t)).removeTree (resolveDir fs t)).dirs := by
    rw [hgdirs]
    intro hmem
    have := (List.mem_filter.mp hmem).2
    simp [List.prefix_refl] at this
  have hgsubf : ∀ x, x ∈ ((afterDelete fs (resolveDir fs t)).removeTree (resolveDir fs t)).files →
      x ∈ fs.files := by
    intro x hx
    rw [hgfiles] at hx
    exact (List.mem_filter.mp (List.mem_filter.mp hx).1).1
  by_cases hname : nameLower t = "frames"
  case pos =>
    -- the pruned directory is the target itself, which no longer exists
    have hdt : resolveDir fs t = t := resolveDir_of_name_frames fs t hname
    rw [hdt] at hd hdg hgfiles ⊢
    have htf : t ∉ fs.files := fun hc => hwf.1 t hc hd
    have hnex2 : ¬ (t ∈ ((afterDelete fs t).removeTree t).dirs ∨
        t ∈ ((afterDelete fs t).removeTree t).files) := by
      rintro (hc | hc)
      · exact hdg hc
      · exact htf (hgsubf t (by rw [hdt] at hgsubf ⊢; exact hc))
    exact delete_frames_not_exists _ t hnex2
  case neg =>
  -- target is a parent whose frames subdirectory was pruned
  have hdt : resolveDir fs t ≠ t := by
    intro hc
    exact hname (hc ▸ hprune.1)
  have htd : t ∈ fs.dirs := by
    rcases hex with h | h
    · exact h
    · exact absurd (resolveDir_of_not_dir fs t (fun hc => hwf.1 t h hc)) hdt
  have hsub : resolveDir fs t = t ++ ["frames"] := by
    rcases resolveDir_eq_or fs t with h | h
    · exact absurd h hdt
    · exact h.1
  have hpfg : ((afterDelete fs (resolveDir fs t)).removeTree (resolveDir fs t)).pngFiles t = [] := by
    rcases h2 with h2 | h2
    · exact absurd h2 hname
    · exact h2
  have htg : t ∈ ((afterDelete fs (resolveDir fs t)).removeTree (resolveDir fs t)).dirs := by
    rw [hgdirs]
    apply List.mem_filter.mpr
    refine ⟨htd, ?_⟩
    simp only [Bool.not_eq_eq_eq_not, Bool.not_true, decide_eq_false_iff_not]
    intro hpre
    rw [hsub] at hpre
    have := hpre.length_le
    simp at this
  have hsubg : (t ++ ["frames"]) ∉
      ((afterDelete fs (resolveDir fs t)).removeTree (resolveDir fs t)).dirs := by
    rw [← hsub]
    exact hdg
  have hres2 : resolveDir ((afterDelete fs (resolveDir fs t)).removeTree (resolveDir fs t)) t = t :=
    resolveDir_of_no_sub _ t hsubg
  apply delete_frames_noop
  · rw [hres2]
    exact hpfg
  · left
    rw [hres2]
    exact htg

/-- C8 witness: deleting a `frames` directory twice — the first run removes
the files and prunes the directory, the second run is a no-op returning ok. -/
theorem C8_idempotent_amended_witness :
    (delete_frames ⟨[["frames"]], [["frames", "a.png"]]⟩ ["frames"]).2 = DelResult.ok ∧
    nameLower ["frames"] = "frames" ∧
    delete_frames (delete_frames ⟨[["frames"]], [["frames", "a.png"]]⟩ ["frames"]).1 ["frames"] =
      ((delete_frames ⟨[["frames"]], [["frames", "a.png"]]⟩ ["frames"]).1, DelResult.ok) :=
  ⟨by decide, by decide,
    C8_idempotent_amended ⟨[["frames"]], [["frames", "a.png"]]⟩ ["frames"]
      ⟨by decide, by decide, by decide⟩ (by decide) (Or.inl (by decide))⟩

end DumpFrames
